import Mathlib

/-!
Formal model of the quincy VPN server core: the TUN worker data plane
(src/tun.rs), the server supervisor loop (src/server.rs) and the
authentication module (src/auth.rs), with the packet-header parsing of the
etherparse dependency modelled as far as the TUN reader uses it.
-/

namespace Quincy

/-- Bytes are modelled as natural numbers; buffers as lists of bytes. -/
abbrev Byte := Nat

/-- A packet buffer as read from the TUN device or taken from the write queue. -/
abbrev Packet := List Byte

/-- An IP address (std::net::IpAddr): IPv4 as four octets, IPv6 as its sixteen
octets. -/
inductive IpAddr where
  | v4 (a b c d : Byte)
  | v6 (octets : List Byte)
deriving DecidableEq, Repr

/-- Models etherparse::IpHeader restricted to what process_incoming_data reads:
the version and the source/destination addresses of the parsed IP header. -/
inductive IpHeader where
  | version4 (source destination : IpAddr)
  | version6 (source destination : IpAddr)
deriving DecidableEq, Repr

/-- Models etherparse::PacketHeaders restricted to the ip field, the only field
process_incoming_data reads. -/
structure PacketHeaders where
  ip : Option IpHeader
deriving DecidableEq, Repr

/-- Byte at index i of a buffer, 0 when out of range; all callers check the
buffer length before reading. -/
def byteAt (bytes : List Byte) (i : Nat) : Byte := bytes.getD i 0

/-- The transport-header kinds the 0.13-line etherparse parses after an
unfragmented IP header. process_incoming_data never reads the transport
headers, but their parse errors propagate out of from_ethernet_slice, so the
model tracks the kind and the error paths while discarding the field values. -/
inductive TransportHeader where
  | udp
  | tcp
  | icmpv4
  | icmpv6
deriving DecidableEq, Repr

/-- Models etherparse 0.13 read_transport on the slice after an unfragmented
IP header and its extensions: ICMPv4 (protocol 1) needs its 8-byte header, or
20 bytes for a timestamp/timestamp-reply message (type 13 or 14, code 0); TCP
(protocol 6) needs 20 bytes, a data offset of at least 5, and the slice to
cover data-offset times 4 bytes; UDP (protocol 17) and ICMPv6 (protocol 58)
need their fixed 8-byte headers; any other protocol yields no transport
header and no error. -/
def readTransport (protocol : Byte) (bytes : List Byte) :
    Except String (Option TransportHeader) :=
  if protocol = 1 then
    if bytes.length < 8 then .error "UnexpectedEndOfSlice"
    else if (byteAt bytes 0 = 13 ∨ byteAt bytes 0 = 14) ∧ byteAt bytes 1 = 0 ∧
        bytes.length < 20 then
      .error "UnexpectedEndOfSlice"
    else .ok (some .icmpv4)
  else if protocol = 6 then
    if bytes.length < 20 then .error "UnexpectedEndOfSlice"
    else if byteAt bytes 12 / 16 < 5 then .error "TcpDataOffsetTooSmall"
    else if bytes.length < (byteAt bytes 12 / 16) * 4 then
      .error "UnexpectedEndOfSlice"
    else .ok (some .tcp)
  else if protocol = 17 then
    if bytes.length < 8 then .error "UnexpectedEndOfSlice"
    else .ok (some .udp)
  else if protocol = 58 then
    if bytes.length < 8 then .error "UnexpectedEndOfSlice"
    else .ok (some .icmpv6)
  else .ok none

/-- Models etherparse IpAuthHeader parsing (IP protocol 51): the length field
at byte 1 counts 4-byte units beyond the first two, a zero length field is an
error, and the slice must cover the whole header. Returns the next protocol
(byte 0) and the slice after the header. -/
def ipAuthFromSlice (bytes : List Byte) : Except String (Byte × List Byte) :=
  if bytes.length < 12 then .error "UnexpectedEndOfSlice"
  else if byteAt bytes 1 = 0 then .error "IpAuthHeaderTooSmallPayloadLength"
  else if bytes.length < (byteAt bytes 1 + 2) * 4 then
    .error "UnexpectedEndOfSlice"
  else .ok (byteAt bytes 0, bytes.drop ((byteAt bytes 1 + 2) * 4))

/-- Models Ipv4Header::is_fragmenting_payload on the slice starting at the
IPv4 header: the more-fragments flag (bit 5 of byte 6) is set or the 13-bit
fragment offset (low bits of byte 6 and byte 7) is nonzero. -/
def ipv4Fragmented (bytes : List Byte) : Bool :=
  ((byteAt bytes 6 / 32) % 2 = 1) || (byteAt bytes 6 % 32 ≠ 0) ||
    (byteAt bytes 7 ≠ 0)

/-- Models etherparse Ipv4Header::from_slice: the slice must cover the
20-byte minimum and the declared header length (IHL times 4, options
included), the version nibble must be 4, the IHL at least 5, and the
total-length field at least the header length; source address is octets 12-15
and destination octets 16-19. Returns the header, the IP protocol (byte 9)
and the slice after the header. -/
def ipv4HeaderFromSlice (bytes : List Byte) :
    Except String (IpHeader × Byte × List Byte) :=
  if bytes.length < 20 then .error "UnexpectedEndOfSlice"
  else if byteAt bytes 0 / 16 ≠ 4 then .error "Ipv4UnexpectedVersion"
  else if byteAt bytes 0 % 16 < 5 then .error "Ipv4HeaderLengthSmallerThanHeader"
  else if bytes.length < (byteAt bytes 0 % 16) * 4 then
    .error "UnexpectedEndOfSlice"
  else if byteAt bytes 2 * 256 + byteAt bytes 3 < (byteAt bytes 0 % 16) * 4 then
    .error "Ipv4TotalLengthSmallerThanHeader"
  else
    .ok (.version4
      (.v4 (byteAt bytes 12) (byteAt bytes 13) (byteAt bytes 14) (byteAt bytes 15))
      (.v4 (byteAt bytes 16) (byteAt bytes 17) (byteAt bytes 18) (byteAt bytes 19)),
      byteAt bytes 9, bytes.drop ((byteAt bytes 0 % 16) * 4))

/-- Models etherparse Ipv6Header::from_slice: the slice must cover the
40-byte fixed header and the version nibble must be 6; source address is
octets 8-23 and destination octets 24-39. Returns the header, the next-header
protocol (byte 6) and the slice after the fixed header. -/
def ipv6HeaderFromSlice (bytes : List Byte) :
    Except String (IpHeader × Byte × List Byte) :=
  if bytes.length < 40 then .error "UnexpectedEndOfSlice"
  else if byteAt bytes 0 / 16 ≠ 6 then .error "Ipv6UnexpectedVersion"
  else
    .ok (.version6
      (.v6 ((bytes.drop 8).take 16))
      (.v6 ((bytes.drop 24).take 16)),
      byteAt bytes 6, bytes.drop 40)

/-- Models etherparse Ipv6Extensions parsing: the chain of hop-by-hop (first
header only), routing (43), destination-options (60), fragment (44) and
authentication (51) extension headers is walked; a generic header spans
(length-byte plus 1) times 8 bytes, the fragment header spans 8 bytes and
marks the payload fragmented when its offset is nonzero or its more-fragments
flag is set, and the authentication header is as in IPv4. The walk stops at
the first other header type, returning the final next-header protocol, the
rest of the slice and the fragmented flag. The fuel argument only bounds the
recursion: each step consumes at least 8 bytes, so slice length plus one
suffices at the call site. -/
def ipv6ExtChain (fuel : Nat) (nextHeader : Byte) (bytes : List Byte)
    (first : Bool) : Except String (Byte × List Byte × Bool) :=
  match fuel with
  | 0 => .ok (nextHeader, bytes, false)
  | fuel + 1 =>
    if nextHeader = 0 ∧ first = false then .error "Ipv6HopByHopHeaderNotAtStart"
    else if nextHeader = 0 ∨ nextHeader = 43 ∨ nextHeader = 60 then
      if bytes.length < 8 then .error "UnexpectedEndOfSlice"
      else if bytes.length < (byteAt bytes 1 + 1) * 8 then
        .error "UnexpectedEndOfSlice"
      else ipv6ExtChain fuel (byteAt bytes 0)
        (bytes.drop ((byteAt bytes 1 + 1) * 8)) false
    else if nextHeader = 44 then
      if bytes.length < 8 then .error "UnexpectedEndOfSlice"
      else
        match ipv6ExtChain fuel (byteAt bytes 0) (bytes.drop 8) false with
        | .error e => .error e
        | .ok (finalNext, rest, frag) =>
          .ok (finalNext, rest,
            frag || (byteAt bytes 2 ≠ 0) || (byteAt bytes 3 / 8 ≠ 0) ||
              (byteAt bytes 3 % 2 = 1))
    else if nextHeader = 51 then
      match ipAuthFromSlice bytes with
      | .error e => .error e
      | .ok (next, rest) => ipv6ExtChain fuel next rest false
    else .ok (nextHeader, bytes, false)

/-- The ether-type dispatch of PacketHeaders::from_ether_type after the link
and VLAN headers: ether type 0x0800 parses an IPv4 header, its extensions
(the authentication header when the protocol is 51) and, when the payload is
not fragmented, its transport header; 0x86DD parses an IPv6 header, its
extension chain and likewise its transport header; any other ether type
yields headers with no IP header and no error. The parsed transport content
is discarded (process_incoming_data reads only the ip field) but its parse
errors propagate, exactly as in the source parser. -/
def fromIpEtherType (etherType : Nat) (bytes : List Byte) :
    Except String PacketHeaders :=
  if etherType = 0x0800 then
    match ipv4HeaderFromSlice bytes with
    | .error e => .error e
    | .ok (header, protocol, afterIp) =>
      match (if protocol = 51 then ipAuthFromSlice afterIp
             else .ok (protocol, afterIp)) with
      | .error e => .error e
      | .ok (nextProtocol, afterExt) =>
        if ipv4Fragmented bytes then .ok ⟨some header⟩
        else
          match readTransport nextProtocol afterExt with
          | .error e => .error e
          | .ok _ => .ok ⟨some header⟩
  else if etherType = 0x86DD then
    match ipv6HeaderFromSlice bytes with
    | .error e => .error e
    | .ok (header, nextHeader, afterIp) =>
      match ipv6ExtChain (afterIp.length + 1) nextHeader afterIp true with
      | .error e => .error e
      | .ok (finalNext, afterExt, fragmented) =>
        if fragmented then .ok ⟨some header⟩
        else
          match readTransport finalNext afterExt with
          | .error e => .error e
          | .ok _ => .ok ⟨some header⟩
  else .ok ⟨none⟩

/-- Models etherparse::PacketHeaders::from_ethernet_slice, the parser the TUN
reader calls (src/tun.rs:111). The code's IpHeader::Version4 two-field
pattern (src/tun.rs:118) pins etherparse to the 0.10-0.13 line; the model
follows 0.13, the release the crate shipped with. A 14-byte Ethernet II
header is consumed first (fewer bytes is an error); a VLAN ether type
(0x8100, 0x88A8 or 0x9100) at offsets 12-13 consumes one 4-byte VLAN header
and re-dispatches on its inner ether type, twice at most; the resulting ether
type then selects IPv4, IPv6 or no IP header via fromIpEtherType, transport
parsing and its error paths included. -/
def fromEthernetSlice (bytes : List Byte) : Except String PacketHeaders :=
  if bytes.length < 14 then .error "UnexpectedEndOfSlice"
  else
    let etherType := byteAt bytes 12 * 256 + byteAt bytes 13
    let rest := bytes.drop 14
    if etherType = 0x8100 ∨ etherType = 0x88A8 ∨ etherType = 0x9100 then
      if rest.length < 4 then .error "UnexpectedEndOfSlice"
      else
        let innerType := byteAt rest 2 * 256 + byteAt rest 3
        let rest1 := rest.drop 4
        if innerType = 0x8100 ∨ innerType = 0x88A8 ∨ innerType = 0x9100 then
          if rest1.length < 4 then .error "UnexpectedEndOfSlice"
          else fromIpEtherType (byteAt rest1 2 * 256 + byteAt rest1 3) (rest1.drop 4)
        else fromIpEtherType innerType rest1
    else fromIpEtherType etherType rest

/-- The IPv4 header-only parse used by the spec-side L3 parser below: the
checks of ipv4HeaderFromSlice with the protocol and rest dropped. -/
def ipv4FromSlice (bytes : List Byte) : Except String IpHeader :=
  match ipv4HeaderFromSlice bytes with
  | .ok (header, _, _) => .ok header
  | .error e => .error e

/-- The IPv6 header-only parse used by the spec-side L3 parser below: the
checks of ipv6HeaderFromSlice with the next-header protocol and rest
dropped. -/
def ipv6FromSlice (bytes : List Byte) : Except String IpHeader :=
  match ipv6HeaderFromSlice bytes with
  | .ok (header, _, _) => .ok header
  | .error e => .error e

/-- Modelled from the spec: the L3 parsing the spec mandates for a TUN in L3
mode (section 9 names from_ip_slice; section 4.3 says "parse the packet to
extract the destination IP"). The buffer starts directly at the IP header and
the version nibble of the first byte selects the parser; the destination is
extracted from the IP header so parsed. This definition follows the spec's
words as the comparison point for the refinement claim about the reader's
parsing, not the code's Ethernet-framed parse above. -/
def fromIpSlice (bytes : List Byte) : Except String PacketHeaders :=
  if bytes.length < 1 then .error "UnexpectedEndOfSlice"
  else if byteAt bytes 0 / 16 = 4 then
    match ipv4FromSlice bytes with
    | .ok header => .ok ⟨some header⟩
    | .error e => .error e
  else if byteAt bytes 0 / 16 = 6 then
    match ipv6FromSlice bytes with
    | .ok header => .ok ⟨some header⟩
    | .error e => .error e
  else .error "IpUnsupportedVersion"

/-- The match on ip_header in process_incoming_data (src/tun.rs:117-120):
destination address of either IP version. -/
def ipHeaderDest : IpHeader → IpAddr
  | .version4 _ destination => destination
  | .version6 _ destination => destination

/-- Models quinn::Connection as the TUN worker observes it: the peer's
advertised maximum datagram size (None until advertised) and whether
send_datagram succeeds on this connection. -/
structure Connection where
  maxDatagramSize : Option Nat
  sendOk : Bool
deriving DecidableEq, Repr

/-- The tunnel's active_connections map (HashMap from IpAddr to connection),
modelled as a function from addresses to optional connections. -/
abbrev ConnectionMap := IpAddr → Option Connection

/-- TunWorker::add_connection (src/tun.rs:44-49): HashMap::insert of the
connection under the remote address. The Rust function is total (returns unit,
never an error). -/
def addConnection (conns : ConnectionMap) (remoteAddr : IpAddr)
    (connection : Connection) : ConnectionMap :=
  fun addr => if addr = remoteAddr then some connection else conns addr

/-- Outcome of one iteration of the reader loop in
TunWorker::process_incoming_data (src/tun.rs:106-145). The fatal constructors
correspond to an error propagated out of the loop body with the question-mark
operator or ok_or_else, which makes the task return Err and terminate; the
continue constructors correspond to the two continue statements; send models a
successful send_datagram after which the loop iterates. -/
inductive ReaderStep where
  | fatalParse (msg : String)
  | continueNoIp
  | fatalUnknownDest
  | fatalNoDatagramSize
  | continueOversize
  | fatalSendError
  | send (data : Packet)
deriving DecidableEq, Repr

/-- One iteration of the reader loop (src/tun.rs:106-145) on the buffer read
from the TUN device: parse with from_ethernet_slice (a parse error propagates
with the question mark, line 111); skip buffers with no IP header (line 114);
extract the destination address; a lookup miss in active_connections is an
error (lines 124-126), as is a missing max_datagram_size (lines 128-133); an
oversize buffer is dropped with a warning (lines 135-142); otherwise the
buffer is sent as one datagram (line 144, an error there also propagating). -/
def processIncomingStep (conns : ConnectionMap) (buf : Packet) : ReaderStep :=
  match fromEthernetSlice buf with
  | .error e => .fatalParse e
  | .ok headers =>
    match headers.ip with
    | none => .continueNoIp
    | some ipHeader =>
      match conns (ipHeaderDest ipHeader) with
      | none => .fatalUnknownDest
      | some connection =>
        match connection.maxDatagramSize with
        | none => .fatalNoDatagramSize
        | some maxSize =>
          if buf.length > maxSize then .continueOversize
          else if connection.sendOk then .send buf else .fatalSendError

/-- The reader loop of TunWorker::process_incoming_data over a finite sequence
of buffers read from the TUN device, returning the datagrams transmitted in
order, or the error that terminated the task. The error strings mirror the
anyhow messages of src/tun.rs:126 and 128-133. -/
def processIncomingData (conns : ConnectionMap) : List Packet → Except String (List Packet)
  | [] => .ok []
  | buf :: rest =>
    match processIncomingStep conns buf with
    | .fatalParse e => .error e
    | .continueNoIp => processIncomingData conns rest
    | .fatalUnknownDest => .error "Received a packet with invalid destination IP"
    | .fatalNoDatagramSize => .error "Client failed to provide maximum datagram size"
    | .continueOversize => processIncomingData conns rest
    | .fatalSendError => .error "send_datagram failed"
    | .send d =>
      match processIncomingData conns rest with
      | .ok sent => .ok (d :: sent)
      | .error e => .error e

/-- TunWorker::process_outgoing_data (src/tun.rs:148-165). The queue is the
finite sequence of buffers the write-queue channel yields before all senders
are closed (recv then returns None and the loop breaks with Ok); written is
the byte-buffer sequence already written to the TUN device; writeOk models
whether write_all succeeds on a buffer (a failure propagates with the
question-mark operator). -/
def processOutgoingData (writeOk : Packet → Bool) :
    List Packet → List Packet → Except String (List Packet)
  | [], written => .ok written
  | buf :: rest, written =>
    if writeOk buf then processOutgoingData writeOk rest (written ++ [buf])
    else .error "write_all failed"

/-- Models a QuincyTunnel as the server supervisor observes it in one tick of
QuincyServer::run (src/server.rs:46-61): the result of is_ok(), and the
results the tunnel's stop() and start() would return if called. -/
structure TunnelState where
  isOk : Bool
  stopResult : Except String Unit
  startResult : Except String Unit
deriving Repr

/-- One tick of the supervision loop in QuincyServer::run (src/server.rs:46-61)
over the tunnels in iteration order: a healthy tunnel is skipped (line 51-53);
for an unhealthy tunnel stop() and then start() are awaited, each with the
question-mark operator (lines 56-57), so a failure of either propagates out of
run() at once. On success the names of the restarted tunnels are returned in
order. -/
def superviseOnce : List (String × TunnelState) → Except String (List String)
  | [] => .ok []
  | (name, tunnel) :: rest =>
    if tunnel.isOk then superviseOnce rest
    else
      match tunnel.stopResult with
      | .error e => .error e
      | .ok _ =>
        match tunnel.startResult with
        | .error e => .error e
        | .ok _ =>
          match superviseOnce rest with
          | .error e => .error e
          | .ok restarted => .ok (name :: restarted)

/-- Names of the tunnels whose is_ok() is false, in iteration order. -/
def unhealthyNames : List (String × TunnelState) → List String
  | [] => []
  | (name, tunnel) :: rest =>
    if tunnel.isOk then unhealthyNames rest else name :: unhealthyNames rest

/-- A session token (src/auth.rs:13): an opaque 16-byte value, modelled as a
list of bytes. -/
abbrev SessionToken := List Byte

/-- A user record (src/auth/user.rs, declared in src/auth.rs:3): username,
PHC-encoded password hash, and the user's session-token set. -/
structure User where
  username : String
  passwordHash : String
  sessions : List SessionToken
deriving DecidableEq, Repr

/-- The Auth user map (DashMap from username to User, src/auth.rs:39),
modelled as an association list keyed by username. -/
abbrev Users := List (String × User)

/-- DashMap::get by username on the user map. -/
def lookupUser : Users → String → Option User
  | [], _ => none
  | (name, user) :: rest, query =>
    if name = query then some user else lookupUser rest query

/-- The error kinds of Auth::authenticate and Auth::verify_session_token
(src/auth.rs:63-98), in the spec's naming: unknownUser for the anyhow error
"Unknown user" (lines 67 and 95), malformedHash for "Could not parse user
password hash" (lines 68-70), badCredentials for "Could not verify
credentials" (lines 72-74). -/
inductive AuthError where
  | unknownUser
  | malformedHash
  | badCredentials
deriving DecidableEq, Repr

/-- Models the argon2 dependency as Auth uses it (src/auth.rs:68-74):
parsePasswordHash models PasswordHash::new (None on a malformed PHC string)
and verifyPassword models Argon2::verify_password on the password and the
parsed hash. -/
structure Hasher where
  parsePasswordHash : String → Option String
  verifyPassword : String → String → Bool

/-- Modelled from the spec: User::new_session lives in src/auth/user.rs, which
is absent from the sources; section 4.1 says a successful authentication
"generates a fresh 16-byte token, inserts it into the user's session set" and
returns it. The fresh token is a parameter here (the source draws it from a
cryptographic RNG). -/
def insertSession : Users → String → SessionToken → Users
  | [], _, _ => []
  | (name, user) :: rest, query, token =>
    if name = query then
      (name, { user with sessions := token :: user.sessions }) :: rest
    else (name, user) :: insertSession rest query token

/-- Modelled from the spec: User::check_session_validity lives in
src/auth/user.rs, absent from the sources. Section 4.1 calls a token valid
when present and not expired, while section 9 records that TTL expiry is not
implemented in the source, so the model checks membership in the session set
only. -/
def checkSessionValidity (user : User) (token : SessionToken) : Bool :=
  user.sessions.contains token

/-- Auth::authenticate (src/auth.rs:63-77): look the user up (an unknown user
is an error, line 67); parse the stored PHC hash (failure is an error, lines
68-70); verify the password against it (failure is an error, lines 72-74); on
success insert the fresh token as a new session and return it. The second
component is the user map after the call (the map is mutated only by
new_session on the success path). -/
def authenticate (hasher : Hasher) (users : Users) (username password : String)
    (freshToken : SessionToken) : Except AuthError SessionToken × Users :=
  match lookupUser users username with
  | none => (.error .unknownUser, users)
  | some user =>
    match hasher.parsePasswordHash user.passwordHash with
    | none => (.error .malformedHash, users)
    | some parsedHash =>
      if hasher.verifyPassword password parsedHash then
        (.ok freshToken, insertSession users username freshToken)
      else (.error .badCredentials, users)

/-- Auth::verify_session_token (src/auth.rs:87-98): an unknown user is an
error (the anyhow "Unknown user" of line 95, propagated by ok_or_else), and
for a known user the result is Ok of the session-validity check. -/
def verifySessionToken (users : Users) (username : String)
    (sessionToken : SessionToken) : Except AuthError Bool :=
  match lookupUser users username with
  | none => .error .unknownUser
  | some user => .ok (checkSessionValidity user sessionToken)

/-- One line of the users file as written by Auth::save_users_file
(src/auth.rs:142): "username:hash" followed by a newline. -/
def userLine (username : String) (user : User) : String :=
  username ++ ":" ++ user.passwordHash ++ "\n"

/-- Contents of the users file as the list of lines written so far; none means
the path holds no file. -/
abbrev FileContents := Option (List String)

/-- The write loop of Auth::save_users_file (src/auth.rs:141-143): append one
line per user to the freshly created file. -/
def writeLoop (file : List String) : List (String × User) → List String
  | [] => file
  | (username, user) :: rest => writeLoop (file ++ [userLine username user]) rest

/-- Auth::save_users_file (src/auth.rs:133-146): remove the file if it exists,
create it anew, then run the write loop; the result is the final contents of
the path when every step succeeds. -/
def saveUsersFile (_initial : FileContents) (users : List (String × User)) :
    FileContents :=
  some (writeLoop [] users)

/-- The file states after each write of the write loop, in order. -/
def writeStates (file : List String) : List (String × User) → List FileContents
  | [] => []
  | (username, user) :: rest =>
    some (file ++ [userLine username user]) ::
      writeStates (file ++ [userLine username user]) rest

/-- The sequence of observable states of the users file during
Auth::save_users_file (src/auth.rs:133-146), in order: the initial contents;
after fs::remove_file when the file existed (the path is then missing, lines
134-136); after File::create (an empty file, line 138); and after each
write of the loop (lines 141-143). -/
def saveTrace (initial : FileContents) (users : List (String × User)) :
    List FileContents :=
  initial ::
    ((if initial.isSome then [(none : FileContents)] else []) ++
      (some [] :: writeStates [] users))

/-- A minimal 20-byte IPv4 header, source 10.0.0.1 and destination 10.0.0.2,
exactly as an L3 TUN device with packet_info disabled delivers it: no Ethernet
header in front. -/
def ipv4Packet : Packet :=
  [0x45, 0x00, 0x00, 0x14, 0x00, 0x00, 0x00, 0x00, 0x40, 0x11, 0x00, 0x00,
   10, 0, 0, 1, 10, 0, 0, 2]

/-- A complete Ethernet II frame: a 14-byte Ethernet header with ether type
0x0800, a 20-byte IPv4 header (protocol 17, total length 28, not fragmented,
source 10.0.0.1, destination 10.0.0.2) and the full 8-byte UDP header, so the
source parser accepts it end to end, transport layer included. -/
def ethFramedPacket : Packet :=
  [0, 0, 0, 0, 0, 0, 0, 0, 0, 0, 0, 0, 0x08, 0x00,
   0x45, 0x00, 0x00, 0x1C, 0x00, 0x00, 0x00, 0x00, 0x40, 0x11, 0x00, 0x00,
   10, 0, 0, 1, 10, 0, 0, 2,
   0x00, 0x00, 0x00, 0x00, 0x00, 0x08, 0x00, 0x00]

/-- A connection advertising a 1500-byte maximum datagram size. -/
def conn1500 : Connection := ⟨some 1500, true⟩

/-- A connection advertising a 10-byte maximum datagram size. -/
def connSmall : Connection := ⟨some 10, true⟩

/-- A connection map routing 10.0.0.2 to conn1500. -/
def connsTo2 : ConnectionMap :=
  fun addr => if addr = .v4 10 0 0 2 then some conn1500 else none

/-- A connection map routing 10.0.0.2 to connSmall. -/
def connsSmallTo2 : ConnectionMap :=
  fun addr => if addr = .v4 10 0 0 2 then some connSmall else none

/-- The empty connection map. -/
def emptyConns : ConnectionMap := fun _ => none

/-- A concrete 16-byte session token. -/
def sampleToken : SessionToken := List.replicate 16 0

/-- A user holding one active session. -/
def aliceUser : User := ⟨"alice", "$argon2id$hash", [sampleToken]⟩

/-- A one-user map. -/
def sampleUsers : Users := [("alice", aliceUser)]

/-- A hasher model whose parser rejects every hash; the authentication claims
instantiated below never reach it. -/
def rejectAllHasher : Hasher := ⟨fun _ => none, fun _ _ => false⟩

/-- A one-user list for the save-file claims. -/
def sampleSaveUsers : List (String × User) := [("alice", User.mk "alice" "h2" [])]

/-- A tunnel whose stop() fails. -/
def stopFailTunnel : TunnelState := ⟨false, .error "stop failed", .ok ()⟩

/-- An unhealthy tunnel whose stop() and start() both succeed. -/
def restartableTunnel : TunnelState := ⟨false, .ok (), .ok ()⟩

/-- An unhealthy tunnel whose stop() succeeds and whose start() fails. -/
def startFailTunnel : TunnelState := ⟨false, .ok (), .error "start failed"⟩

/-- Any reader-loop iteration whose buffer parses with an IP header whose
destination is absent from the connection map is the fatalUnknownDest
outcome. -/
theorem processIncomingStep_unknownDest (conns : ConnectionMap) (buf : Packet)
    (hdrs : PacketHeaders) (iph : IpHeader)
    (hparse : fromEthernetSlice buf = .ok hdrs) (hip : hdrs.ip = some iph)
    (hconn : conns (ipHeaderDest iph) = none) :
    processIncomingStep conns buf = .fatalUnknownDest := by
  simp [processIncomingStep, hparse, hip, hconn]

/-- C1: the claim says a destination-IP lookup miss in the connection map
drops the packet with a WARN and the reader task keeps running. The code
(src/tun.rs:124-126) instead propagates an anyhow error with ok_or_else and
the question-mark operator, so the reader task terminates: at a concrete
Ethernet-framed IPv4 packet destined to 10.0.0.2 and an empty connection map,
the reader loop returns the error rather than continuing. -/
theorem c1_counterexample :
    processIncomingStep emptyConns ethFramedPacket = .fatalUnknownDest ∧
    processIncomingData emptyConns [ethFramedPacket] =
      .error "Received a packet with invalid destination IP" :=
  ⟨rfl, rfl⟩

/-- C1 (amended): for every packet whose parsed destination IP is not present
in the tunnel's connection map, the packet is dropped (never transmitted) and
the reader task terminates with the error "Received a packet with invalid
destination IP"; the lookup miss is fatal to the task. -/
theorem c1_amended (conns : ConnectionMap) (buf : Packet) (rest : List Packet)
    (hdrs : PacketHeaders) (iph : IpHeader)
    (hparse : fromEthernetSlice buf = .ok hdrs) (hip : hdrs.ip = some iph)
    (hconn : conns (ipHeaderDest iph) = none) :
    processIncomingStep conns buf = .fatalUnknownDest ∧
    processIncomingData conns (buf :: rest) =
      .error "Received a packet with invalid destination IP" := by
  have hstep := processIncomingStep_unknownDest conns buf hdrs iph hparse hip hconn
  exact ⟨hstep, by simp [processIncomingData, hstep]⟩

/-- C1 (witness): the amended claim at the concrete Ethernet-framed IPv4
packet destined to 10.0.0.2, an empty connection map, and one further queued
buffer. -/
theorem c1_amended_witness :
    processIncomingStep emptyConns ethFramedPacket = .fatalUnknownDest ∧
    processIncomingData emptyConns (ethFramedPacket :: [ipv4Packet]) =
      .error "Received a packet with invalid destination IP" :=
  c1_amended emptyConns ethFramedPacket [ipv4Packet]
    ⟨some (.version4 (.v4 10 0 0 1) (.v4 10 0 0 2))⟩
    (.version4 (.v4 10 0 0 1) (.v4 10 0 0 2)) rfl rfl rfl

/-- C3: for every packet read from the TUN whose length exceeds the
destination connection's advertised max datagram size, the reader drops the
packet with a WARN and transmits nothing (the outcome is never a send), and
the reader continues with the next packet (the loop result over the remaining
buffers is unchanged). Models src/tun.rs:135-142. -/
theorem c3_oversize_drop (conns : ConnectionMap) (buf : Packet)
    (rest : List Packet) (hdrs : PacketHeaders) (iph : IpHeader)
    (connection : Connection) (maxSize : Nat)
    (hparse : fromEthernetSlice buf = .ok hdrs) (hip : hdrs.ip = some iph)
    (hconn : conns (ipHeaderDest iph) = some connection)
    (hmax : connection.maxDatagramSize = some maxSize)
    (hlen : buf.length > maxSize) :
    processIncomingStep conns buf = .continueOversize ∧
    (∀ d, processIncomingStep conns buf ≠ .send d) ∧
    processIncomingData conns (buf :: rest) = processIncomingData conns rest := by
  have hstep : processIncomingStep conns buf = .continueOversize := by
    simp [processIncomingStep, hparse, hip, hconn, hmax, hlen]
  refine ⟨hstep, fun d hd => ?_, by simp [processIncomingData, hstep]⟩
  rw [hstep] at hd
  exact ReaderStep.noConfusion hd

/-- C3 (witness): the oversize-drop claim at the concrete 34-byte
Ethernet-framed packet, a connection advertising a 10-byte maximum datagram
size, and one further queued buffer. -/
theorem c3_oversize_drop_witness :
    processIncomingStep connsSmallTo2 ethFramedPacket = .continueOversize ∧
    (∀ d, processIncomingStep connsSmallTo2 ethFramedPacket ≠ .send d) ∧
    processIncomingData connsSmallTo2 (ethFramedPacket :: [ipv4Packet]) =
      processIncomingData connsSmallTo2 [ipv4Packet] :=
  c3_oversize_drop connsSmallTo2 ethFramedPacket [ipv4Packet]
    ⟨some (.version4 (.v4 10 0 0 1) (.v4 10 0 0 2))⟩
    (.version4 (.v4 10 0 0 1) (.v4 10 0 0 2)) connSmall 10
    rfl rfl rfl rfl (by decide)

/-- C4: the claim says the TUN reader parses every buffer as an L3 IP packet
with no Ethernet header; the spec mandates L3 and flags the source's use of
from_ethernet_slice (src/tun.rs:111) as the bug. At a concrete minimal IPv4
packet destined to 10.0.0.2, exactly as an L3 TUN device with packet_info
disabled delivers it, the reader's Ethernet parse finds no IP header (the IP
bytes are misread as an Ethernet header and an unknown ether type) and the
packet is silently skipped; the L3 parse the spec mandates extracts
destination 10.0.0.2, which the connection map routes to a connection. -/
theorem c4_ethernet_parse_bug :
    processIncomingStep connsTo2 ipv4Packet = .continueNoIp ∧
    fromEthernetSlice ipv4Packet = .ok ⟨none⟩ ∧
    fromIpSlice ipv4Packet =
      .ok ⟨some (.version4 (.v4 10 0 0 1) (.v4 10 0 0 2))⟩ ∧
    connsTo2 (.v4 10 0 0 2) = some conn1500 :=
  ⟨rfl, rfl, rfl, rfl⟩

/-- C5: the claim says a buffer that fails to parse is dropped silently and
never terminates the reader task. The code (src/tun.rs:111) propagates the
parse error with the question-mark operator, terminating the task: at the
concrete empty buffer the reader loop returns the parse error. -/
theorem c5_counterexample :
    processIncomingStep emptyConns [] = .fatalParse "UnexpectedEndOfSlice" ∧
    processIncomingData emptyConns [[]] = .error "UnexpectedEndOfSlice" :=
  ⟨rfl, rfl⟩

/-- C5 (amended): a buffer that parses but contains no IP header is dropped
silently (no transmission, no log) and the reader continues its loop; a buffer
that fails to parse terminates the reader task with the parse error. -/
theorem c5_amended (conns : ConnectionMap) (buf : Packet) (rest : List Packet) :
    (∀ hdrs, fromEthernetSlice buf = .ok hdrs → hdrs.ip = none →
      processIncomingStep conns buf = .continueNoIp ∧
      processIncomingData conns (buf :: rest) = processIncomingData conns rest) ∧
    (∀ e, fromEthernetSlice buf = .error e →
      processIncomingStep conns buf = .fatalParse e ∧
      processIncomingData conns (buf :: rest) = .error e) := by
  constructor
  · intro hdrs hparse hip
    have hstep : processIncomingStep conns buf = .continueNoIp := by
      simp [processIncomingStep, hparse, hip]
    exact ⟨hstep, by simp [processIncomingData, hstep]⟩
  · intro e hparse
    have hstep : processIncomingStep conns buf = .fatalParse e := by
      simp [processIncomingStep, hparse]
    exact ⟨hstep, by simp [processIncomingData, hstep]⟩

/-- C5 (witness): the amended claim at a raw IPv4 buffer (which the Ethernet
parse reads as carrying no IP header) and at the empty buffer (which fails to
parse). -/
theorem c5_amended_witness :
    (processIncomingStep emptyConns ipv4Packet = .continueNoIp ∧
      processIncomingData emptyConns (ipv4Packet :: []) =
        processIncomingData emptyConns []) ∧
    (processIncomingStep emptyConns [] = .fatalParse "UnexpectedEndOfSlice" ∧
      processIncomingData emptyConns ([] :: []) =
        .error "UnexpectedEndOfSlice") :=
  ⟨(c5_amended emptyConns ipv4Packet []).1 ⟨none⟩ rfl rfl,
   (c5_amended emptyConns [] []).2 "UnexpectedEndOfSlice" rfl⟩

/-- When every unhealthy tunnel's stop() and start() succeed, one supervision
tick restarts exactly the unhealthy tunnels, in order, and returns Ok. -/
theorem superviseOnce_ok_of_restartable :
    ∀ tunnels : List (String × TunnelState),
      (∀ p ∈ tunnels, p.2.isOk = false →
        p.2.stopResult = .ok () ∧ p.2.startResult = .ok ()) →
      superviseOnce tunnels = .ok (unhealthyNames tunnels) := by
  intro tunnels
  induction tunnels with
  | nil => intro _; rfl
  | cons p rest ih =>
    intro hall
    obtain ⟨name, tunnel⟩ := p
    by_cases hok : tunnel.isOk = true
    · simp [superviseOnce, unhealthyNames, hok,
        ih fun q hq => hall q (List.mem_cons_of_mem _ hq)]
    · have hfalse : tunnel.isOk = false := by
        cases h : tunnel.isOk
        · rfl
        · exact absurd h hok
      obtain ⟨hstop, hstart⟩ := hall (name, tunnel) (List.mem_cons_self _ _) hfalse
      have hst : tunnel.stopResult = .ok () := hstop
      have hsa : tunnel.startResult = .ok () := hstart
      simp [superviseOnce, unhealthyNames, hfalse, hst, hsa,
        ih fun q hq => hall q (List.mem_cons_of_mem _ hq)]

/-- A stop() or start() failure on an unhealthy tunnel at the head of the
iteration aborts the tick at once with that error. -/
theorem superviseOnce_failHead (name : String) (tunnel : TunnelState)
    (rest : List (String × TunnelState)) (e : String)
    (hunhealthy : tunnel.isOk = false)
    (hfail : tunnel.stopResult = .error e ∨
      (tunnel.stopResult = .ok () ∧ tunnel.startResult = .error e)) :
    superviseOnce ((name, tunnel) :: rest) = .error e := by
  rcases hfail with hstop | ⟨hstop, hstart⟩
  · simp [superviseOnce, hunhealthy, hstop]
  · simp [superviseOnce, hunhealthy, hstop, hstart]

/-- A stop() or start() failure on an unhealthy tunnel anywhere in the tick,
after a prefix of tunnels that are healthy or restart cleanly, aborts the
whole tick with that error, so none of the remaining tunnels is examined. -/
theorem superviseOnce_failAt :
    ∀ (pre : List (String × TunnelState)) (name : String) (tunnel : TunnelState)
      (rest : List (String × TunnelState)) (e : String),
      (∀ p ∈ pre, p.2.isOk = false →
        p.2.stopResult = .ok () ∧ p.2.startResult = .ok ()) →
      tunnel.isOk = false →
      (tunnel.stopResult = .error e ∨
        (tunnel.stopResult = .ok () ∧ tunnel.startResult = .error e)) →
      superviseOnce (pre ++ (name, tunnel) :: rest) = .error e := by
  intro pre
  induction pre with
  | nil =>
    intro name tunnel rest e _ hunhealthy hfail
    exact superviseOnce_failHead name tunnel rest e hunhealthy hfail
  | cons q pre ih =>
    intro name tunnel rest e hpre hunhealthy hfail
    obtain ⟨qname, qtunnel⟩ := q
    have htail := ih name tunnel rest e
      (fun p hp => hpre p (List.mem_cons_of_mem _ hp)) hunhealthy hfail
    by_cases hok : qtunnel.isOk = true
    · simp [List.cons_append, superviseOnce, hok, htail]
    · have hfalse : qtunnel.isOk = false := by
        cases h : qtunnel.isOk
        · rfl
        · exact absurd h hok
      obtain ⟨hstop, hstart⟩ := hpre (qname, qtunnel) (List.mem_cons_self _ _) hfalse
      have hst : qtunnel.stopResult = .ok () := hstop
      have hsa : qtunnel.startResult = .ok () := hstart
      simp [List.cons_append, superviseOnce, hfalse, hst, hsa, htail]

/-- C2: the claim says a failure of stop() or start() on an unhealthy tunnel
does not terminate the supervision loop. The code (src/server.rs:56-57)
awaits both with the question-mark operator, so the failure propagates out of
run(): with a first tunnel whose stop() fails (or whose start() fails) and a
second unhealthy but restartable tunnel, the tick returns the error, while
the second tunnel alone would have been restarted. -/
theorem c2_counterexample :
    superviseOnce [("a", stopFailTunnel), ("b", restartableTunnel)] =
      .error "stop failed" ∧
    superviseOnce [("a", startFailTunnel), ("b", restartableTunnel)] =
      .error "start failed" ∧
    superviseOnce [("b", restartableTunnel)] = .ok ["b"] :=
  ⟨rfl, rfl, rfl⟩

/-- C2 (amended): on every tick, for every tunnel whose is_ok() is false,
stop() and then start() are called, and when they all succeed the tick
restarts exactly the unhealthy tunnels in order; but a failure of a stop() or
of a start(), on any unhealthy tunnel reached after a prefix of healthy or
cleanly-restarting tunnels, propagates out of run() immediately, terminating
supervision of the remaining tunnels. -/
theorem c2_amended (tunnels : List (String × TunnelState)) :
    ((∀ p ∈ tunnels, p.2.isOk = false →
        p.2.stopResult = .ok () ∧ p.2.startResult = .ok ()) →
      superviseOnce tunnels = .ok (unhealthyNames tunnels)) ∧
    (∀ (pre : List (String × TunnelState)) (name : String)
        (tunnel : TunnelState) (rest : List (String × TunnelState))
        (e : String),
      (∀ p ∈ pre, p.2.isOk = false →
        p.2.stopResult = .ok () ∧ p.2.startResult = .ok ()) →
      tunnel.isOk = false →
      (tunnel.stopResult = .error e ∨
        (tunnel.stopResult = .ok () ∧ tunnel.startResult = .error e)) →
      superviseOnce (pre ++ (name, tunnel) :: rest) = .error e) :=
  ⟨superviseOnce_ok_of_restartable tunnels,
   fun pre name tunnel rest e h1 h2 h3 =>
     superviseOnce_failAt pre name tunnel rest e h1 h2 h3⟩

/-- C2 (witness): the amended claim at a single restartable unhealthy tunnel,
and at a start() failure in second position followed by a further tunnel that
is then never supervised. -/
theorem c2_amended_witness :
    superviseOnce [("b", restartableTunnel)] =
      .ok (unhealthyNames [("b", restartableTunnel)]) ∧
    superviseOnce ([("b", restartableTunnel)] ++
      ("a", startFailTunnel) :: [("c", restartableTunnel)]) =
      .error "start failed" :=
  ⟨(c2_amended [("b", restartableTunnel)]).1 (by
      intro p hp hfalse
      cases hp with
      | head => exact ⟨rfl, rfl⟩
      | tail _ h => cases h),
   (c2_amended [("b", restartableTunnel)]).2 [("b", restartableTunnel)] "a"
     startFailTunnel [("c", restartableTunnel)] "start failed" (by
      intro p hp hfalse
      cases hp with
      | head => exact ⟨rfl, rfl⟩
      | tail _ h => cases h) rfl (Or.inr ⟨rfl, rfl⟩)⟩

/-- C6: the claim says verify_session_token returns the boolean false for a
username not in the user map, rather than an error. The code
(src/auth.rs:92-95) propagates an anyhow "Unknown user" error with ok_or_else
and the question-mark operator: at the empty user map and any token the result
is the error, not Ok false. -/
theorem c6_counterexample :
    verifySessionToken [] "bob" sampleToken = .error .unknownUser ∧
    (Except.error AuthError.unknownUser : Except AuthError Bool) ≠ .ok false :=
  ⟨rfl, fun h => nomatch h⟩

/-- C6 (amended): verify_session_token returns an error (Unknown user) for a
username not in the user map; for a known user it returns Ok of the user's
session-validity check, and in particular Ok true exactly when the token is in
that user's session set (TTL expiry is not checked; src/auth/user.rs is
modelled from the spec, whose section 9 records that eviction on TTL expiry is
not implemented in the source). -/
theorem c6_amended (users : Users) (username : String) (token : SessionToken) :
    (lookupUser users username = none →
      verifySessionToken users username token = .error .unknownUser) ∧
    (∀ user, lookupUser users username = some user →
      verifySessionToken users username token =
        .ok (checkSessionValidity user token)) ∧
    (verifySessionToken users username token = .ok true ↔
      ∃ user, lookupUser users username = some user ∧
        checkSessionValidity user token = true) := by
  refine ⟨fun h => by simp [verifySessionToken, h],
    fun user h => by simp [verifySessionToken, h], ?_⟩
  cases h : lookupUser users username with
  | none =>
    simp only [verifySessionToken, h]
    constructor
    · intro h2; exact nomatch h2
    · rintro ⟨user, hu, _⟩
      exact nomatch hu
  | some user =>
    simp only [verifySessionToken, h]
    constructor
    · intro h2
      refine ⟨user, rfl, ?_⟩
      injection h2
    · rintro ⟨u, hu, hc⟩
      injection hu with hu
      rw [hu, hc]

/-- C6 (witness): the amended claim at a one-user map, for an unknown username
and for the known user. -/
theorem c6_amended_witness :
    verifySessionToken sampleUsers "bob" sampleToken = .error .unknownUser ∧
    verifySessionToken sampleUsers "alice" sampleToken =
      .ok (checkSessionValidity aliceUser sampleToken) :=
  ⟨(c6_amended sampleUsers "bob" sampleToken).1 rfl,
   (c6_amended sampleUsers "alice" sampleToken).2.1 aliceUser rfl⟩

/-- C7: for every username not present in the user map and every password,
authenticate fails with the unknown-user error, issues no session token, and
leaves the user map unchanged (src/auth.rs:64-67); and every error
authenticate returns is one of unknownUser, malformedHash or badCredentials
(the three error sites of src/auth.rs:63-77), with the user map unchanged on
every error. -/
theorem c7_authenticate (hasher : Hasher) (users : Users)
    (username password : String) (freshToken : SessionToken) :
    (lookupUser users username = none →
      authenticate hasher users username password freshToken =
        (.error .unknownUser, users)) ∧
    (∀ e, (authenticate hasher users username password freshToken).1 = .error e →
      (e = .unknownUser ∨ e = .malformedHash ∨ e = .badCredentials) ∧
      (authenticate hasher users username password freshToken).2 = users) := by
  constructor
  · intro h; simp [authenticate, h]
  · intro e herr
    refine ⟨?_, ?_⟩
    · cases e
      · exact Or.inl rfl
      · exact Or.inr (Or.inl rfl)
      · exact Or.inr (Or.inr rfl)
    · cases hl : lookupUser users username with
      | none => simp [authenticate, hl]
      | some user =>
        cases hp : hasher.parsePasswordHash user.passwordHash with
        | none => simp [authenticate, hl, hp]
        | some parsed =>
          by_cases hv : hasher.verifyPassword password parsed
          · have hok : (authenticate hasher users username password freshToken).1 =
                .ok freshToken := by
              simp [authenticate, hl, hp, hv]
            rw [hok] at herr
            exact nomatch herr
          · simp [authenticate, hl, hp, hv]

/-- C7 (witness): authenticate at the empty user map fails with the
unknown-user error and leaves the map unchanged. -/
theorem c7_authenticate_witness :
    authenticate rejectAllHasher [] "bob" "pw" sampleToken =
      (.error .unknownUser, []) :=
  (c7_authenticate rejectAllHasher [] "bob" "pw" sampleToken).1 rfl

/-- Whenever the writer loop returns Ok, the bytes written to the TUN device
are exactly the previously written buffers followed by the whole queue. -/
theorem processOutgoingData_ok_eq (writeOk : Packet → Bool) :
    ∀ queue written result : List Packet,
      processOutgoingData writeOk queue written = .ok result →
      result = written ++ queue := by
  intro queue
  induction queue with
  | nil =>
    intro written result h
    have hw : written = result := by simpa [processOutgoingData] using h
    simp [hw]
  | cons buf rest ih =>
    intro written result h
    by_cases hw : writeOk buf = true
    · rw [processOutgoingData, if_pos hw] at h
      have := ih (written ++ [buf]) result h
      simp [this]
    · rw [processOutgoingData, if_neg hw] at h
      exact nomatch h

/-- When every write succeeds, the writer loop drains the whole queue and
returns Ok with all buffers appended in order. -/
theorem processOutgoingData_complete (writeOk : Packet → Bool) :
    ∀ queue written : List Packet, (∀ buf ∈ queue, writeOk buf = true) →
      processOutgoingData writeOk queue written = .ok (written ++ queue) := by
  intro queue
  induction queue with
  | nil => intro written _; simp [processOutgoingData]
  | cons buf rest ih =>
    intro written hall
    have hw : writeOk buf = true := hall buf (List.mem_cons_self _ _)
    rw [processOutgoingData, if_pos hw,
      ih (written ++ [buf]) fun b hb => hall b (List.mem_cons_of_mem _ hb)]
    simp

/-- C8: for every packet enqueued on the TUN write queue, if the writer task
runs to completion (returns Ok) the packet is written to the TUN device
byte-for-byte exactly once, in enqueue order (the written sequence is exactly
the prior writes followed by the queue); and when all queue senders are closed
(the channel yields no further buffer) the writer task terminates cleanly with
success. Models src/tun.rs:148-165. -/
theorem c8_writer (writeOk : Packet → Bool) (queue written : List Packet) :
    processOutgoingData writeOk [] written = .ok written ∧
    (∀ result, processOutgoingData writeOk queue written = .ok result →
      result = written ++ queue) ∧
    ((∀ buf ∈ queue, writeOk buf = true) →
      processOutgoingData writeOk queue written = .ok (written ++ queue)) :=
  ⟨rfl, fun result h => processOutgoingData_ok_eq writeOk queue written result h,
   fun hall => processOutgoingData_complete writeOk queue written hall⟩

/-- C8 (witness): the writer claim at a concrete two-buffer queue and
always-succeeding writes. -/
theorem c8_writer_witness :
    [[1, 2], [3]] = ([] : List Packet) ++ [[1, 2], [3]] ∧
    processOutgoingData (fun _ => true) [[1, 2], [3]] [] =
      .ok ([] ++ [[1, 2], [3]]) :=
  ⟨(c8_writer (fun _ => true) [[1, 2], [3]] []).2.1 [[1, 2], [3]] rfl,
   (c8_writer (fun _ => true) [[1, 2], [3]] []).2.2 fun _ _ => rfl⟩

/-- The write loop appends exactly one formatted line per user, in order. -/
theorem writeLoop_eq :
    ∀ (users : List (String × User)) (file : List String),
      writeLoop file users = file ++ users.map fun p => userLine p.1 p.2 := by
  intro users
  induction users with
  | nil => intro file; simp [writeLoop]
  | cons p rest ih =>
    intro file
    obtain ⟨name, user⟩ := p
    simp [writeLoop, ih]

/-- The state holding all the written lines occurs in the write-state
sequence (as its final element; stated as membership). -/
theorem mem_writeStates_final :
    ∀ (users : List (String × User)) (file : List String),
      some (file ++ users.map fun p => userLine p.1 p.2) ∈
        (some file :: writeStates file users : List FileContents) := by
  intro users
  induction users with
  | nil => intro file; simp [writeStates]
  | cons p rest ih =>
    intro file
    obtain ⟨name, user⟩ := p
    refine List.mem_cons_of_mem _ ?_
    have h := ih (file ++ [userLine name user])
    simpa [writeStates, List.append_assoc] using h

/-- C9: the claim says save_users_file replaces the users file atomically,
with no intermediate state (a missing or truncated file) ever observable. The
code (src/auth.rs:133-146) removes the existing file, creates it anew, and
writes the lines one by one: at the concrete initial file ["alice:h1\n"] and
the one-user map for hash h2, the observable states include a missing file
(after fs::remove_file) and an empty file (after File::create), neither the
complete previous contents nor the complete new contents. -/
theorem c9_counterexample :
    saveTrace (some ["alice:h1\n"]) [("alice", User.mk "alice" "h2" [])] =
      [some ["alice:h1\n"], none, some [], some ["alice:h2\n"]] ∧
    (none : FileContents) ∈
      saveTrace (some ["alice:h1\n"]) [("alice", User.mk "alice" "h2" [])] ∧
    (none : FileContents) ≠ some ["alice:h1\n"] ∧
    (none : FileContents) ≠ some ["alice:h2\n"] := by
  refine ⟨rfl, ?_, ?_, ?_⟩
  · exact List.Mem.tail _ (List.Mem.head _)
  · intro h; exact Option.noConfusion h
  · intro h; exact Option.noConfusion h

/-- C9 (amended): when every step succeeds, save_users_file leaves the path
holding exactly one line username:phc_hash per user, in order; but the
replacement is not atomic: it removes the existing file, recreates it empty,
and writes the lines sequentially, so when a file existed before the call an
intermediate state with the path missing is observable, and the complete new
contents appear only as the final write state. -/
theorem c9_amended (initial : FileContents) (users : List (String × User)) :
    saveUsersFile initial users = some (users.map fun p => userLine p.1 p.2) ∧
    (initial.isSome = true →
      (none : FileContents) ∈ saveTrace initial users) ∧
    some (users.map fun p => userLine p.1 p.2) ∈ saveTrace initial users := by
  refine ⟨by simp [saveUsersFile, writeLoop_eq], fun h => by simp [saveTrace, h], ?_⟩
  have h' : some (users.map fun p => userLine p.1 p.2) ∈
      (some [] :: writeStates [] users : List FileContents) := by
    simpa using mem_writeStates_final users []
  exact List.mem_cons_of_mem _ (List.mem_append_right _ h')

/-- C9 (witness): the amended claim at a concrete pre-existing file and the
one-user map. -/
theorem c9_amended_witness :
    saveUsersFile (some ["old"]) sampleSaveUsers =
      some (sampleSaveUsers.map fun p => userLine p.1 p.2) ∧
    (none : FileContents) ∈ saveTrace (some ["old"]) sampleSaveUsers :=
  ⟨(c9_amended (some ["old"]) sampleSaveUsers).1,
   (c9_amended (some ["old"]) sampleSaveUsers).2.1 rfl⟩

/-- C10: for every call to add_connection with an address already present in
the connection map, the call succeeds (the Rust function is total, returning
unit) and silently replaces the existing entry with the new connection, and
every other address's entry is unchanged. Models HashMap::insert in
src/tun.rs:44-49. -/
theorem c10_add_connection (conns : ConnectionMap) (addr : IpAddr)
    (oldConn newConn : Connection) (_hpresent : conns addr = some oldConn) :
    addConnection conns addr newConn addr = some newConn ∧
    (∀ other, other ≠ addr → addConnection conns addr newConn other = conns other) :=
  ⟨by simp [addConnection], fun other hne => by simp [addConnection, hne]⟩

/-- C10 (witness): replacing the entry for 10.0.0.2 while 10.0.0.1 is
unaffected. -/
theorem c10_add_connection_witness :
    addConnection connsTo2 (.v4 10 0 0 2) connSmall (.v4 10 0 0 2) =
      some connSmall ∧
    addConnection connsTo2 (.v4 10 0 0 2) connSmall (.v4 10 0 0 1) =
      connsTo2 (.v4 10 0 0 1) :=
  ⟨(c10_add_connection connsTo2 (.v4 10 0 0 2) conn1500 connSmall rfl).1,
   (c10_add_connection connsTo2 (.v4 10 0 0 2) conn1500 connSmall rfl).2
     (.v4 10 0 0 1) (by decide)⟩

end Quincy
